import Mathlib

/-!
Shallow embedding of the consoleassist agent (src/app/agent.py and
src/app/agent_console_updated.py).

The repository is a LangGraph conversational agent.  The parts relevant to
the claims are pure string/state manipulation: the command gates of the
four tool wrappers, the Python-code safety filter, the plan parser, the
step executor and the turn router.  External effects (the LLM call, the
spawned subprocess, the sandboxed exec) are treated as oracles: the model
reply and the process result are explicit parameters, and reaching the
spawn/exec point is represented by a dedicated outcome constructor.

Python string primitives (str.strip, str.split, str.startswith, substring
membership, str.split with a separator) are re-implemented over List Char
so that every definition is executable and kernel-reducible.
-/

/-- Whitespace test matching the characters Python treats as whitespace in
str.strip, str.split and the regex class backslash-s (ASCII range). -/
def pyIsSpace (c : Char) : Bool :=
  c.isWhitespace || c == Char.ofNat 11 || c == Char.ofNat 12

/-- Strip of leading and trailing whitespace over a character list. -/
def stripChars (l : List Char) : List Char :=
  ((l.dropWhile pyIsSpace).reverse.dropWhile pyIsSpace).reverse

/-- Model of Python str.strip with no argument. -/
def pyStrip (s : String) : String :=
  String.mk (stripChars s.data)

/-- Boolean test that the first list begins with the second. -/
def listStartsWith : List Char → List Char → Bool
  | _, [] => true
  | [], _ :: _ => false
  | c :: cs, d :: ds => c == d && listStartsWith cs ds

/-- Model of Python str.startswith. -/
def pyStartsWith (s pre : String) : Bool :=
  listStartsWith s.data pre.data

/-- Boolean test that the second list occurs contiguously inside the first. -/
def listHasInfix (hay needle : List Char) : Bool :=
  match hay with
  | [] => listStartsWith [] needle
  | c :: rest => listStartsWith (c :: rest) needle || listHasInfix rest needle

/-- Model of the Python expression needle in hay on strings. -/
def strContains (hay needle : String) : Bool :=
  listHasInfix hay.data needle.data

/-- Accumulator-based splitter on whitespace runs, discarding empty tokens. -/
def splitWsAux (cur : List Char) : List Char → List (List Char)
  | [] => if cur.isEmpty then [] else [cur.reverse]
  | c :: rest =>
    if pyIsSpace c then
      if cur.isEmpty then splitWsAux [] rest
      else cur.reverse :: splitWsAux [] rest
    else splitWsAux (c :: cur) rest

/-- Model of Python str.split with no argument: split on whitespace runs,
no empty tokens. -/
def pySplit (s : String) : List String :=
  (splitWsAux [] s.data).map String.mk

/-- Accumulator-based splitter on a newline separator, keeping empty parts. -/
def splitNlAux (cur : List Char) : List Char → List (List Char)
  | [] => [cur.reverse]
  | c :: rest =>
    if c == '\n' then cur.reverse :: splitNlAux [] rest
    else splitNlAux (c :: cur) rest

/-- Model of the Python expression s.split(chr(10)): parts between newline
separators, empty parts kept. -/
def pySplitNewlines (s : String) : List String :=
  (splitNlAux [] s.data).map String.mk

/-- Single apostrophe character, used to reproduce quoted fragments of the
message strings of the source. -/
def qm : String := String.mk [Char.ofNat 39]

/-! ## Command policy (agent_console_updated.py, lines 33-54) -/

/-- Allowed gcloud command categories (ALLOWED_GCLOUD_COMMANDS). -/
def ALLOWED_GCLOUD_COMMANDS : List String :=
  ["compute", "storage", "run", "functions", "config", "projects",
   "auth", "iam", "services", "container", "ai", "ml"]

/-- Allowed gsutil commands (ALLOWED_GSUTIL_COMMANDS). -/
def ALLOWED_GSUTIL_COMMANDS : List String :=
  ["ls", "cp", "mv", "rm", "cat", "stat", "acl", "cors", "web",
   "iam", "kms", "label", "logging", "notification", "versioning"]

/-- Allowed bq commands (ALLOWED_BQ_COMMANDS). -/
def ALLOWED_BQ_COMMANDS : List String :=
  ["query", "ls", "mk", "rm", "cp", "extract", "load", "update",
   "show", "head", "insert", "wait", "cancel"]

/-- Allowed kubectl commands (ALLOWED_KUBECTL_COMMANDS). -/
def ALLOWED_KUBECTL_COMMANDS : List String :=
  ["get", "describe", "logs", "exec", "apply", "create", "delete",
   "scale", "rollout", "expose", "set", "explain", "config"]

/-- Destructive keywords requiring confirmation (DESTRUCTIVE_COMMANDS in
agent_console_updated.py, line 54). -/
def DESTRUCTIVE_COMMANDS : List String :=
  ["delete", "remove", "reset", "unset", "clear", "rm", "drop"]

/-! ## Command Gate outcome

Each tool wrapper either returns one of the textual error/warning messages
before spawning any process, or reaches the subprocess.run call.  The
distinct return points of the source are represented by a tagged outcome;
reaching subprocess.run is the execute constructor carrying the exact
command line handed to the shell. -/

/-- Outcome of a gated tool call, one constructor per return point of the
source preceding process execution, plus the execution point itself. -/
inductive GateOutcome where
  | malformed : GateOutcome
  | invalidFormat : GateOutcome
  | categoryNotAllowed (category : String) : GateOutcome
  | confirmationRequired (keyword : String) : GateOutcome
  | execute (command : String) : GateOutcome
deriving DecidableEq

/-- Shared body of run_gcloud_command, run_gsutil_command, run_bq_command
and run_kubectl_command in agent_console_updated.py, which are textually
identical up to the program name and allow-list.  Mirrors lines 68-96 of
the gcloud instance: prefix check on the stripped command, token split,
length check, category membership check, then the destructive-keyword loop
over DESTRUCTIVE_COMMANDS testing list membership in the token list. -/
def gatedRun (prog : String) (allowed : List String) (command : String) : GateOutcome :=
  if pyStartsWith (pyStrip command) (prog ++ " ") = false then
    GateOutcome.malformed
  else
    match pySplit (pyStrip command) with
    | t0 :: category :: rest =>
      if allowed.contains category = false then
        GateOutcome.categoryNotAllowed category
      else
        match DESTRUCTIVE_COMMANDS.find?
            (fun k => (t0 :: category :: rest).contains k) with
        | some k => GateOutcome.confirmationRequired k
        | none => GateOutcome.execute command
    | _ => GateOutcome.invalidFormat

/-- Gate of run_gcloud_command (agent_console_updated.py, lines 57-100). -/
def run_gcloud_command (command : String) : GateOutcome :=
  gatedRun "gcloud" ALLOWED_GCLOUD_COMMANDS command

/-- Gate of run_gsutil_command (agent_console_updated.py, lines 102-145). -/
def run_gsutil_command (command : String) : GateOutcome :=
  gatedRun "gsutil" ALLOWED_GSUTIL_COMMANDS command

/-- Gate of run_bq_command (agent_console_updated.py, lines 147-190). -/
def run_bq_command (command : String) : GateOutcome :=
  gatedRun "bq" ALLOWED_BQ_COMMANDS command

/-- Gate of run_kubectl_command (agent_console_updated.py, lines 192-235). -/
def run_kubectl_command (command : String) : GateOutcome :=
  gatedRun "kubectl" ALLOWED_KUBECTL_COMMANDS command

/-! ## Tool Invoker result handling (agent.py lines 139-152, identical in
agent_console_updated.py lines 87-100)

subprocess.run is called with check set, so a non-zero exit status raises
CalledProcessError and a zero exit status falls through to the stdout
line.  The process itself is external: its exit status, stdout and stderr
are the oracle input. -/

/-- Result of the external process, as captured by subprocess.run. -/
structure ProcResult where
  returncode : Int
  stdout : String
  stderr : String
deriving DecidableEq

/-- Text of str(e) for a CalledProcessError with a positive exit status. -/
def calledProcessErrorText (command : String) (returncode : Int) : String :=
  "Command " ++ qm ++ command ++ qm ++ " returned non-zero exit status "
    ++ toString returncode ++ "."

/-- Mapping from the process result to the string returned by the tool:
stdout on success when non-empty, the fixed sentinel on success with empty
stdout, and the error text built from stderr (or str(e)) on failure. -/
def handleRunResult (command : String) (r : ProcResult) : String :=
  if r.returncode = 0 then
    if r.stdout ≠ "" then r.stdout
    else "Command executed successfully (no output)"
  else
    "Error executing command: "
      ++ (if r.stderr ≠ "" then r.stderr
          else calledProcessErrorText command r.returncode)

/-! ## Code Sandbox Evaluator gate (agent.py, lines 41-64)

execute_python_code scans the snippet for a fixed deny-list of markers by
raw substring search before any execution; the exec call itself is the
external boundary, represented by the proceedToExec constructor. -/

/-- Deny-list of capability markers (dangerous_modules, agent.py 56-60). -/
def dangerous_modules : List String :=
  ["os.system", "subprocess", "eval(", "exec(",
   "open(", "__import__", "importlib", "shutil",
   "socket", "requests", "urllib", "pathlib"]

/-- Outcome of the safety scan of execute_python_code: either the SAFETY
CHECK message naming the first matching marker is returned before any
execution, or control reaches the exec call. -/
inductive PyCodeOutcome where
  | safetyRejected (marker : String) : PyCodeOutcome
  | proceedToExec : PyCodeOutcome
deriving DecidableEq

/-- Safety gate of execute_python_code (agent.py lines 55-64): the loop
over dangerous_modules returns on the first marker contained in the code
as a raw substring; otherwise execution proceeds. -/
def execute_python_code (code : String) : PyCodeOutcome :=
  match dangerous_modules.find? (fun m => strContains code m) with
  | some m => PyCodeOutcome.safetyRejected m
  | none => PyCodeOutcome.proceedToExec

/-- Text of the rejection message returned at agent.py line 64. -/
def safetyCheckMessage (marker : String) : String :=
  "SAFETY CHECK: The code contains potentially unsafe operations ("
    ++ marker
    ++ "). For security reasons, code with system access, file operations, or network capabilities is not permitted."

/-! ## Ungated core variant of run_gcloud_command (agent.py, lines 104-152)

In agent.py both the category allow-list check and the destructive-keyword
check are commented out; the live body only prepends the program name when
absent and then always reaches subprocess.run. -/

namespace AgentCore

/-- Tool run_gcloud_command of agent.py: lines 127-129 prepend the prefix
when command.startswith of the raw (unstripped) command fails, and
execution is always attempted. -/
def run_gcloud_command (command : String) : GateOutcome :=
  let command :=
    if pyStartsWith command "gcloud " = false then "gcloud " ++ command
    else command
  GateOutcome.execute command

end AgentCore

/-! ## Plan parsing (agent.py, create_plan lines 291-305)

The primary extraction is re.findall over the pattern: one-or-more digits,
a literal period, greedy whitespace, then a lazy capture of any characters
(DOTALL) up to a lookahead of newline-digits-period or end of input.
Since the lazy capture can always extend to the end of the input where the
end-anchor alternative of the lookahead holds, the regex engine never
backtracks into the digit run or the whitespace run, so the match at a
position is: maximal digit run (non-empty), a period, maximal whitespace
run, then the shortest capture whose right end satisfies the lookahead.
re.findall scans left to right, restarting after each match end. -/

/-- Split of a leading maximal digit run from a character list. -/
def takeDigits : List Char → List Char × List Char
  | [] => ([], [])
  | c :: rest =>
    if c.isDigit then
      let (d, r) := takeDigits rest
      (c :: d, r)
    else ([], c :: rest)

/-- Test for digits-then-period at the head of a character list, the body
of the lookahead alternative after its newline. -/
def numItemAt (l : List Char) : Bool :=
  let (d, afterD) := takeDigits l
  !d.isEmpty && afterD.head? == some '.'

/-- Test of the capture-terminating lookahead: end of input, or a newline
followed by digits and a period. -/
def lookaheadNum (l : List Char) : Bool :=
  match l with
  | [] => true
  | c :: rest => c == '\n' && numItemAt rest

/-- Lazy capture: the shortest prefix whose right end satisfies the
lookahead, returned with the remaining characters (lookahead consumed
nothing). -/
def captureLazy : List Char → List Char × List Char
  | [] => ([], [])
  | c :: rest =>
    if lookaheadNum (c :: rest) then ([], c :: rest)
    else
      let (cap, r) := captureLazy rest
      (c :: cap, r)

/-- Attempted regex match at the current position: digits, period,
whitespace, lazy capture.  Returns the capture and the rest of the input
after the match. -/
def matchNumberedAt (l : List Char) : Option (List Char × List Char) :=
  let (d, afterD) := takeDigits l
  if d.isEmpty then none
  else
    match afterD with
    | '.' :: rest =>
      let afterWs := rest.dropWhile pyIsSpace
      some (captureLazy afterWs)
    | _ => none

/-- Scanning loop of re.findall: try a match at each position, restart
after a match end, advance one character otherwise.  Every step strictly
shortens the input, so fuel equal to the input length suffices. -/
def findNumberedAux : Nat → List Char → List (List Char)
  | 0, _ => []
  | _, [] => []
  | Nat.succ fuel, c :: rest =>
    match matchNumberedAt (c :: rest) with
    | some (cap, r) => cap :: findNumberedAux fuel r
    | none => findNumberedAux fuel rest

/-- Captures of re.findall for the numbered-item pattern over a string. -/
def findNumbered (s : String) : List String :=
  (findNumberedAux s.data.length s.data).map String.mk

/-- Stripped non-blank lines of a reply, the first fallback of the parser
(agent.py line 297). -/
def fallbackLines (plan_text : String) : List String :=
  ((pySplitNewlines plan_text).map pyStrip).filter (fun line => line ≠ "")

/-- Plan-step parser of create_plan (agent.py lines 292-305): numbered
items, else non-blank lines, then a strip-and-drop-blank cleanup pass,
and finally the whole stripped reply as a one-item plan. -/
def parsePlanSteps (plan_text : String) : List String :=
  let steps := findNumbered plan_text
  let steps := if steps.isEmpty then fallbackLines plan_text else steps
  let steps := steps.map pyStrip
  let steps := steps.filter (fun step => step ≠ "")
  if steps.isEmpty then [pyStrip plan_text] else steps

/-! ## Conversation state (MessagesState with the plan keys of agent.py)

Messages carry a role, text content and tool-call requests; the state
carries the message history plus the plan fields read with defaults by
route_next_step (agent.py lines 233-235). -/

/-- Tool-call request attached to a model message. -/
structure ToolCallRequest where
  name : String
  args : String
deriving DecidableEq

/-- Role of a message, mirroring the langchain message classes. -/
inductive Role where
  | human : Role
  | ai : Role
  | system : Role
  | tool : Role
deriving DecidableEq

/-- Message record: role, content and tool-call requests. -/
structure Message where
  role : Role
  content : String
  tool_calls : List ToolCallRequest
deriving DecidableEq

/-- Assistant message with plain text content, as built by AIMessage. -/
def aiMessage (content : String) : Message :=
  { role := Role.ai, content := content, tool_calls := [] }

/-- User message with plain text content, as built by HumanMessage. -/
def userMsg (content : String) : Message :=
  { role := Role.human, content := content, tool_calls := [] }

/-- Conversation state: message history plus plan fields.  The defaults
used by state.get in the source (plan_created false, current_step -1,
plan empty) are the field values of the initial state. -/
structure AgentState where
  messages : List Message
  plan_created : Bool
  current_step : Int
  plan : List String
deriving DecidableEq

/-- State at the start of a conversation: only the message history is
populated; the plan keys take their defaults. -/
def initialState (msgs : List Message) : AgentState :=
  { messages := msgs, plan_created := false, current_step := -1, plan := [] }

/-! ## Turn Router (agent.py, route_next_step lines 227-249) -/

/-- Routing label returned by the router; finish is the END sentinel. -/
inductive Route where
  | planner : Route
  | executor : Route
  | tools : Route
  | finish : Route
deriving DecidableEq

/-- Turn router: reads the last message and the plan fields and returns a
label.  The source indexes messages at -1, which faults on an empty
history; that partiality is the none case. -/
def route_next_step (s : AgentState) : Option Route :=
  match s.messages.getLast? with
  | none => none
  | some last_message =>
    if s.plan_created = false ∧ last_message.role = Role.human then
      some Route.planner
    else if s.plan_created = true ∧ s.current_step < (s.plan.length : Int) - 1 then
      some Route.executor
    else if last_message.tool_calls ≠ [] then
      some Route.tools
    else
      some Route.finish

/-! ## Plan Builder (agent.py, create_plan lines 252-326)

The LLM reply text is an oracle parameter.  The source scans backward for
the latest human message; with none it returns the no-op plan state, and
otherwise it parses the reply, appends a summary message when steps were
produced, and sets the plan fields. -/

/-- Backward scan for the most recent user-authored message. -/
def latestHumanMessage (msgs : List Message) : Option Message :=
  msgs.reverse.find? (fun m => m.role = Role.human)

/-- Summary message text built at agent.py lines 309-312. -/
def planSummary (steps : List String) : String :=
  "I" ++ qm ++ "ll help you with this request. Here" ++ qm ++ "s my plan:\n\n"
    ++ String.join ((steps.enumFrom 1).map
        (fun p => toString p.1 ++ ". " ++ p.2 ++ "\n"))
    ++ "\nI" ++ qm ++ "ll start working on this step by step."

/-- Plan Builder with the model reply as oracle (agent.py 252-326). -/
def create_plan (reply : String) (s : AgentState) : AgentState :=
  match latestHumanMessage s.messages with
  | none =>
    { s with plan_created := true, plan := [], current_step := -1 }
  | some _ =>
    let steps := parsePlanSteps reply
    let new_messages :=
      if steps.isEmpty = false then
        s.messages ++ [aiMessage (planSummary steps)]
      else s.messages
    { s with
      messages := new_messages,
      plan := steps,
      current_step := if steps.isEmpty = false then 0 else -1,
      plan_created := true }

/-! ## Step Executor (agent.py, execute_step lines 329-389) -/

/-- Completion message appended when the last step finishes. -/
def completionMessage : String :=
  String.mk [Char.ofNat 9989] ++ " All steps have been completed successfully!"

/-- Step Executor with the model reply as oracle: out-of-range cursor is a
no-op; otherwise it appends the progress message and the reply, advances
the cursor, and appends the completion message when the plan is spent. -/
def execute_step (reply : String) (s : AgentState) : AgentState :=
  if s.current_step < 0 ∨ (s.plan.length : Int) ≤ s.current_step then s
  else
    let step_description := s.plan.getD s.current_step.toNat ""
    let step_message :=
      "Step " ++ toString (s.current_step + 1) ++ "/"
        ++ toString s.plan.length ++ ": " ++ step_description
    let new_messages := s.messages ++ [aiMessage step_message]
    let new_messages := new_messages ++ [aiMessage reply]
    let next_step := s.current_step + 1
    let new_messages :=
      if (s.plan.length : Int) ≤ next_step then
        new_messages ++ [aiMessage completionMessage]
      else new_messages
    { s with messages := new_messages, current_step := next_step }

/-- States reachable from an initial state by the two components that
write the plan fields: the Plan Builder and the Step Executor, each driven
by an arbitrary oracle reply. -/
inductive ReachableState : AgentState → Prop where
  | start (msgs : List Message) : ReachableState (initialState msgs)
  | buildPlan (s : AgentState) (reply : String) :
      ReachableState s → ReachableState (create_plan reply s)
  | runStep (s : AgentState) (reply : String) :
      ReachableState s → ReachableState (execute_step reply s)

/-! ## Helper lemmas about stripping -/

/-- Dropping a satisfied prefix twice equals dropping it once. -/
theorem dropWhileTwice {α : Type} (p : α → Bool) (l : List α) :
    (l.dropWhile p).dropWhile p = l.dropWhile p := by
  induction l with
  | nil => rfl
  | cons a t ih =>
    by_cases h : p a = true
    · simp [List.dropWhile_cons, h, ih]
    · simp [List.dropWhile_cons, h]

/-- The head surviving a dropWhile falsifies the predicate. -/
theorem dropWhile_head_false {α : Type} (p : α → Bool) (l : List α) (a : α)
    (t : List α) (h : l.dropWhile p = a :: t) : p a = false := by
  induction l with
  | nil => simp at h
  | cons b t' ih =>
    rw [List.dropWhile_cons] at h
    by_cases hb : p b = true
    · rw [if_pos hb] at h
      exact ih h
    · rw [if_neg hb] at h
      injection h with h1 h2
      subst h1
      simpa using hb

/-- A non-empty dropWhile result keeps the last element of the list. -/
theorem dropWhile_getLastQ {α : Type} (p : α → Bool) (l : List α) (a : α)
    (t : List α) (h : l.dropWhile p = a :: t) :
    l.getLast? = (a :: t).getLast? := by
  induction l with
  | nil => simp at h
  | cons b t' ih =>
    rw [List.dropWhile_cons] at h
    by_cases hb : p b = true
    · rw [if_pos hb] at h
      rw [← ih h]
      cases t' with
      | nil => simp at h
      | cons c u => rw [List.getLast?_cons_cons]
    · rw [if_neg hb] at h
      rw [h]

/-- A list whose head falsifies the predicate is untouched by dropWhile. -/
theorem dropWhile_of_head_false {α : Type} (p : α → Bool) (a : α)
    (t : List α) (h : p a = false) : (a :: t).dropWhile p = a :: t := by
  simp [List.dropWhile_cons, h]

/-- Stripping both ends of a character list is idempotent. -/
theorem stripChars_idem (l : List Char) :
    stripChars (stripChars l) = stripChars l := by
  unfold stripChars
  cases h2 : (l.dropWhile pyIsSpace).reverse.dropWhile pyIsSpace with
  | nil => simp [h2]
  | cons a t =>
    have hleft : ∃ b u, l.dropWhile pyIsSpace = b :: u := by
      cases hl : l.dropWhile pyIsSpace with
      | nil => rw [hl] at h2; simp at h2
      | cons b u => exact ⟨b, u, rfl⟩
    obtain ⟨b, u, hl⟩ := hleft
    have hb : pyIsSpace b = false := dropWhile_head_false _ _ _ _ hl
    have hlast : (a :: t).getLast? = some b := by
      rw [← dropWhile_getLastQ _ _ _ _ h2, List.getLast?_reverse, hl]
      rfl
    have hdrop : List.dropWhile pyIsSpace (a :: t).reverse = (a :: t).reverse := by
      cases hr : (a :: t).reverse with
      | nil => rfl
      | cons c r =>
        have hc : some c = some b := by
          rw [← hlast, ← List.head?_reverse, hr]
          rfl
        injection hc with hc
        rw [hc]
        exact dropWhile_of_head_false _ _ _ hb
    rw [hdrop, List.reverse_reverse, ← h2, dropWhileTwice]

/-- Python str.strip is idempotent. -/
theorem pyStrip_idem (s : String) : pyStrip (pyStrip s) = pyStrip s := by
  show String.mk (stripChars (stripChars s.data)) = String.mk (stripChars s.data)
  rw [stripChars_idem]

/-- Stripping and blank-filtering an already stripped-and-filtered list of
strings changes nothing. -/
theorem strip_filter_stable (l : List String) :
    ((((l.map pyStrip).filter (fun x => x ≠ "")).map pyStrip).filter
        (fun x => x ≠ ""))
      = (l.map pyStrip).filter (fun x => x ≠ "") := by
  induction l with
  | nil => rfl
  | cons a t ih =>
    simp only [List.map_cons, List.filter_cons]
    by_cases h : pyStrip a = ""
    · simp only [h]
      simpa using ih
    · have h' : (decide (pyStrip a ≠ "")) = true := by simp [h]
      simp only [h', if_true, List.map_cons, List.filter_cons, pyStrip_idem, h]
      rw [ih]

/-! ## Claim theorems -/

/-- Helper for the destructive-keyword property of the shared gate body:
under a passing prefix check and a passing category check, a destructive
token among the components forces the ConfirmationRequired outcome and
rules out the execute outcome. -/
theorem gatedRun_destructive (prog : String) (allowed : List String)
    (command t0 category : String) (rest : List String)
    (hpre : pyStartsWith (pyStrip command) (prog ++ " ") = true)
    (hsplit : pySplit (pyStrip command) = t0 :: category :: rest)
    (hcat : allowed.contains category = true)
    (hkw : ∃ k ∈ DESTRUCTIVE_COMMANDS, (t0 :: category :: rest).contains k = true) :
    (∃ k ∈ DESTRUCTIVE_COMMANDS,
        (t0 :: category :: rest).contains k = true ∧
        gatedRun prog allowed command = GateOutcome.confirmationRequired k) ∧
    ∀ c, gatedRun prog allowed command ≠ GateOutcome.execute c := by
  have hfind :
      ∃ k, DESTRUCTIVE_COMMANDS.find?
        (fun k => (t0 :: category :: rest).contains k) = some k := by
    obtain ⟨k, hk1, hk2⟩ := hkw
    have : (DESTRUCTIVE_COMMANDS.find?
        (fun k => (t0 :: category :: rest).contains k)).isSome = true :=
      List.find?_isSome.mpr ⟨k, hk1, hk2⟩
    exact Option.isSome_iff_exists.mp this
  obtain ⟨k, hk⟩ := hfind
  have hout : gatedRun prog allowed command = GateOutcome.confirmationRequired k := by
    unfold gatedRun
    rw [hpre]
    simp only [Bool.true_eq_false, if_false, hsplit, hcat, if_false, hk]
  refine ⟨⟨k, List.mem_of_find?_eq_some hk, List.find?_some hk, hout⟩, ?_⟩
  intro c hc
  rw [hout] at hc
  exact GateOutcome.noConfusion hc

/-- Claim C2: a command that passes the program-prefix and category checks
and whose whitespace-token list contains a destructive keyword as an exact
token makes the Command Gate (run_gcloud_command and run_gsutil_command of
agent_console_updated.py) return the ConfirmationRequired warning, and the
execution point is not reached in that call. -/
theorem destructive_keyword_confirmation :
    (∀ command t0 category rest,
      pyStartsWith (pyStrip command) ("gcloud" ++ " ") = true →
      pySplit (pyStrip command) = t0 :: category :: rest →
      ALLOWED_GCLOUD_COMMANDS.contains category = true →
      (∃ k ∈ DESTRUCTIVE_COMMANDS, (t0 :: category :: rest).contains k = true) →
      (∃ k ∈ DESTRUCTIVE_COMMANDS,
          (t0 :: category :: rest).contains k = true ∧
          run_gcloud_command command = GateOutcome.confirmationRequired k) ∧
      ∀ c, run_gcloud_command command ≠ GateOutcome.execute c) ∧
    (∀ command t0 category rest,
      pyStartsWith (pyStrip command) ("gsutil" ++ " ") = true →
      pySplit (pyStrip command) = t0 :: category :: rest →
      ALLOWED_GSUTIL_COMMANDS.contains category = true →
      (∃ k ∈ DESTRUCTIVE_COMMANDS, (t0 :: category :: rest).contains k = true) →
      (∃ k ∈ DESTRUCTIVE_COMMANDS,
          (t0 :: category :: rest).contains k = true ∧
          run_gsutil_command command = GateOutcome.confirmationRequired k) ∧
      ∀ c, run_gsutil_command command ≠ GateOutcome.execute c) :=
  ⟨fun command t0 category rest hpre hsplit hcat hkw =>
      gatedRun_destructive "gcloud" ALLOWED_GCLOUD_COMMANDS
        command t0 category rest hpre hsplit hcat hkw,
   fun command t0 category rest hpre hsplit hcat hkw =>
      gatedRun_destructive "gsutil" ALLOWED_GSUTIL_COMMANDS
        command t0 category rest hpre hsplit hcat hkw⟩

/-- Witness for C2 at the concrete command
gcloud compute instances delete my-vm. -/
theorem destructive_keyword_confirmation_witness :
    (∃ k ∈ DESTRUCTIVE_COMMANDS,
        (["gcloud", "compute", "instances", "delete", "my-vm"] : List String).contains k = true ∧
        run_gcloud_command "gcloud compute instances delete my-vm"
          = GateOutcome.confirmationRequired k) ∧
    ∀ c, run_gcloud_command "gcloud compute instances delete my-vm"
        ≠ GateOutcome.execute c :=
  destructive_keyword_confirmation.1
    "gcloud compute instances delete my-vm"
    "gcloud" "compute" ["instances", "delete", "my-vm"]
    (by decide) (by decide) (by decide)
    ⟨"delete", by decide, by decide⟩

/-- Claim C3: a command whose stripped text does not start with the
program invocation name followed by a space is rejected as malformed and
the execution point is not reached. -/
theorem malformed_command_gate (command : String)
    (h : pyStartsWith (pyStrip command) ("gcloud" ++ " ") = false) :
    run_gcloud_command command = GateOutcome.malformed ∧
    ∀ c, run_gcloud_command command ≠ GateOutcome.execute c := by
  have hout : run_gcloud_command command = GateOutcome.malformed := by
    unfold run_gcloud_command gatedRun
    rw [h]
    simp
  exact ⟨hout, fun c hc => GateOutcome.noConfusion (hout ▸ hc)⟩

/-- Witness for C3 at the concrete command ls -la. -/
theorem malformed_command_gate_witness :
    run_gcloud_command "ls -la" = GateOutcome.malformed ∧
    ∀ c, run_gcloud_command "ls -la" ≠ GateOutcome.execute c :=
  malformed_command_gate "ls -la" (by decide)

/-- Claim C4: a command with the correct program prefix whose second
whitespace token is outside the allow-list is rejected with the
category-not-allowed error and is not executed. -/
theorem category_not_allowed_gate (command t0 category : String)
    (rest : List String)
    (hpre : pyStartsWith (pyStrip command) ("gcloud" ++ " ") = true)
    (hsplit : pySplit (pyStrip command) = t0 :: category :: rest)
    (hcat : ALLOWED_GCLOUD_COMMANDS.contains category = false) :
    run_gcloud_command command = GateOutcome.categoryNotAllowed category ∧
    ∀ c, run_gcloud_command command ≠ GateOutcome.execute c := by
  have hout : run_gcloud_command command
      = GateOutcome.categoryNotAllowed category := by
    unfold run_gcloud_command gatedRun
    rw [hpre]
    simp only [Bool.true_eq_false, if_false, hsplit, hcat, if_true]
  exact ⟨hout, fun c hc => GateOutcome.noConfusion (hout ▸ hc)⟩

/-- Witness for C4 at the concrete command gcloud sql instances list. -/
theorem category_not_allowed_gate_witness :
    run_gcloud_command "gcloud sql instances list"
      = GateOutcome.categoryNotAllowed "sql" ∧
    ∀ c, run_gcloud_command "gcloud sql instances list"
        ≠ GateOutcome.execute c :=
  category_not_allowed_gate "gcloud sql instances list"
    "gcloud" "sql" ["instances", "list"] (by decide) (by decide) (by decide)

/-- Claim C7: the Step Executor is a no-op on a cursor outside the range
of valid plan indices: the state comes back unchanged, so no message is
appended and no field is modified. -/
theorem executor_out_of_range_noop (reply : String) (s : AgentState)
    (h : s.current_step < 0 ∨ (s.plan.length : Int) ≤ s.current_step) :
    execute_step reply s = s := by
  unfold execute_step
  rw [if_pos h]

/-- Witness for C7 at a concrete state whose cursor equals the plan
length. -/
theorem executor_out_of_range_noop_witness :
    execute_step "result text"
        { messages := [], plan_created := true, current_step := 1,
          plan := ["only step"] }
      = { messages := [], plan_created := true, current_step := 1,
          plan := ["only step"] } :=
  executor_out_of_range_noop "result text" _ (by decide)

/-- Claim C9: on a zero exit status the Tool Invoker returns stdout when
non-empty and the fixed sentinel otherwise, and the returned string is
never empty. -/
theorem success_output_nonempty (command : String) (r : ProcResult)
    (h : r.returncode = 0) :
    handleRunResult command r =
      (if r.stdout ≠ "" then r.stdout
       else "Command executed successfully (no output)") ∧
    handleRunResult command r ≠ "" := by
  have hout : handleRunResult command r =
      (if r.stdout ≠ "" then r.stdout
       else "Command executed successfully (no output)") := by
    unfold handleRunResult
    rw [if_pos h]
  refine ⟨hout, ?_⟩
  rw [hout]
  by_cases hs : r.stdout = ""
  · simp [hs]
  · simp [hs]

/-- Witness for C9 at a concrete successful process result with empty
stdout. -/
theorem success_output_nonempty_witness :
    handleRunResult "gcloud compute instances list"
        { returncode := 0, stdout := "", stderr := "" } =
      (if ("" : String) ≠ "" then ""
       else "Command executed successfully (no output)") ∧
    handleRunResult "gcloud compute instances list"
        { returncode := 0, stdout := "", stderr := "" } ≠ "" :=
  success_output_nonempty "gcloud compute instances list"
    { returncode := 0, stdout := "", stderr := "" } rfl

/-- Claim C10: the core-variant run_gcloud_command of agent.py performs no
gating: it prepends the program prefix when absent and always reaches the
execution point, so the malformed, category-not-allowed and
confirmation-required outcomes are unreachable. -/
theorem core_gcloud_ungated (command : String) :
    AgentCore.run_gcloud_command command =
      GateOutcome.execute
        (if pyStartsWith command "gcloud " = false then "gcloud " ++ command
         else command) ∧
    AgentCore.run_gcloud_command command ≠ GateOutcome.malformed ∧
    AgentCore.run_gcloud_command command ≠ GateOutcome.invalidFormat ∧
    (∀ category,
      AgentCore.run_gcloud_command command
        ≠ GateOutcome.categoryNotAllowed category) ∧
    (∀ keyword,
      AgentCore.run_gcloud_command command
        ≠ GateOutcome.confirmationRequired keyword) := by
  refine ⟨rfl, ?_, ?_, ?_, ?_⟩ <;>
    first
      | exact fun h => GateOutcome.noConfusion h
      | exact fun x h => GateOutcome.noConfusion h

/-- Witness for C10 at the concrete input compute instances list, which
lacks the prefix and gains it. -/
theorem core_gcloud_ungated_witness :
    AgentCore.run_gcloud_command "compute instances list" =
      GateOutcome.execute
        (if pyStartsWith "compute instances list" "gcloud " = false then
          "gcloud " ++ "compute instances list"
         else "compute instances list") :=
  (core_gcloud_ungated "compute instances list").1

/-- Claim C1: with a non-empty history, the Turn Router selects the
planner iff the plan is not yet created and the last message is
user-authored; otherwise the executor iff the plan is created and the
cursor is below the last index; otherwise tool dispatch iff the last
message carries tool-call requests; otherwise it ends the turn. -/
theorem router_ordered_rules (s : AgentState) (last : Message)
    (h : s.messages.getLast? = some last) :
    (route_next_step s = some Route.planner ↔
      (s.plan_created = false ∧ last.role = Role.human)) ∧
    (route_next_step s = some Route.executor ↔
      (¬ (s.plan_created = false ∧ last.role = Role.human) ∧
        s.plan_created = true ∧
        s.current_step < (s.plan.length : Int) - 1)) ∧
    (route_next_step s = some Route.tools ↔
      (¬ (s.plan_created = false ∧ last.role = Role.human) ∧
        ¬ (s.plan_created = true ∧
            s.current_step < (s.plan.length : Int) - 1) ∧
        last.tool_calls ≠ [])) ∧
    (route_next_step s = some Route.finish ↔
      (¬ (s.plan_created = false ∧ last.role = Role.human) ∧
        ¬ (s.plan_created = true ∧
            s.current_step < (s.plan.length : Int) - 1) ∧
        last.tool_calls = [])) := by
  by_cases h1 : s.plan_created = false ∧ last.role = Role.human
  · have hroute : route_next_step s = some Route.planner := by
      simp only [route_next_step, h]
      rw [if_pos h1]
    rw [hroute]
    refine ⟨?_, ?_, ?_, ?_⟩ <;> simp [h1]
  · by_cases h2 : s.plan_created = true ∧
        s.current_step < (s.plan.length : Int) - 1
    · have hroute : route_next_step s = some Route.executor := by
        simp only [route_next_step, h]
        rw [if_neg h1, if_pos h2]
      rw [hroute]
      refine ⟨?_, ?_, ?_, ?_⟩ <;> simp [h1, h2]
    · by_cases h3 : last.tool_calls ≠ []
      · have hroute : route_next_step s = some Route.tools := by
          simp only [route_next_step, h]
          rw [if_neg h1, if_neg h2, if_pos h3]
        rw [hroute]
        refine ⟨?_, ?_, ?_, ?_⟩ <;> simp [h1, h2, h3]
      · have hroute : route_next_step s = some Route.finish := by
          simp only [route_next_step, h]
          rw [if_neg h1, if_neg h2, if_neg h3]
        rw [hroute]
        push_neg at h3
        refine ⟨?_, ?_, ?_, ?_⟩ <;> simp [h1, h2, h3]

/-- Witness for C1: a fresh state with a single user message routes to
the planner. -/
theorem router_ordered_rules_witness :
    route_next_step (initialState [userMsg "list my buckets"])
      = some Route.planner :=
  (router_ordered_rules (initialState [userMsg "list my buckets"])
      (userMsg "list my buckets") rfl).1.mpr ⟨rfl, rfl⟩

/-- Claim C8: the Code Sandbox Evaluator rejects a snippet, naming a
matched marker and reaching no execution, exactly when the snippet
contains a deny-list marker as a raw substring; in particular the concrete
snippet that imports os and invokes a shell listing through os.system is
rejected before any execution, naming the os.system marker. -/
theorem sandbox_denylist_rejection :
    (∀ code,
      (execute_python_code code ≠ PyCodeOutcome.proceedToExec ↔
        ∃ m ∈ dangerous_modules, strContains code m = true) ∧
      (∀ m, execute_python_code code = PyCodeOutcome.safetyRejected m →
        m ∈ dangerous_modules ∧ strContains code m = true)) ∧
    execute_python_code ("import os; os.system(" ++ qm ++ "ls" ++ qm ++ ")")
      = PyCodeOutcome.safetyRejected "os.system" := by
  constructor
  · intro code
    constructor
    · constructor
      · intro hne
        unfold execute_python_code at hne
        cases hfind : dangerous_modules.find? (fun m => strContains code m) with
        | none => rw [hfind] at hne; exact absurd rfl hne
        | some m =>
          exact ⟨m, List.mem_of_find?_eq_some hfind, List.find?_some hfind⟩
      · intro ⟨m, hm1, hm2⟩ heq
        unfold execute_python_code at heq
        cases hfind : dangerous_modules.find? (fun m => strContains code m) with
        | none =>
          rw [List.find?_eq_none] at hfind
          exact absurd hm2 (by simpa using hfind m hm1)
        | some k => rw [hfind] at heq; exact PyCodeOutcome.noConfusion heq
    · intro m hm
      unfold execute_python_code at hm
      cases hfind : dangerous_modules.find? (fun m => strContains code m) with
      | none => rw [hfind] at hm; exact PyCodeOutcome.noConfusion hm
      | some k =>
        rw [hfind] at hm
        injection hm with hk
        subst hk
        exact ⟨List.mem_of_find?_eq_some hfind, List.find?_some hfind⟩
  · decide

/-- Witness for C8 at the concrete snippet subprocess.run(cmd). -/
theorem sandbox_denylist_rejection_witness :
    execute_python_code "subprocess.run(cmd)" ≠ PyCodeOutcome.proceedToExec :=
  (sandbox_denylist_rejection.1 "subprocess.run(cmd)").1.mpr
    ⟨"subprocess", by decide, by decide⟩

/-- Claim C6: in every state reachable from an initial state by the Plan
Builder and the Step Executor, the cursor is -1, a valid plan index, or
the plan length; the Turn Router returns only a routing label and appears
in no transition. -/
theorem reachable_cursor_invariant (s : AgentState) (h : ReachableState s) :
    s.current_step = -1 ∨
    (0 ≤ s.current_step ∧ s.current_step < (s.plan.length : Int)) ∨
    s.current_step = (s.plan.length : Int) := by
  induction h with
  | start msgs => left; rfl
  | buildPlan s reply hs ih =>
    unfold create_plan
    cases hfind : latestHumanMessage s.messages with
    | none => left; rfl
    | some m =>
      cases hp : parsePlanSteps reply with
      | nil =>
        left
        simp [hp]
      | cons a t =>
        right; left
        refine ⟨?_, ?_⟩ <;> simp [hp]
  | runStep s reply hs ih =>
    unfold execute_step
    by_cases hr : s.current_step < 0 ∨ (s.plan.length : Int) ≤ s.current_step
    · rw [if_pos hr]
      exact ih
    · rw [if_neg hr]
      push_neg at hr
      simp only
      omega

/-- Claim C5: the Plan Builder parser maps the reply with numbered items
A, B, C to the plan A, B, C with cursor 0; in general it extracts
numbered-list items first, falls back to the stripped non-blank lines when
no numbered item is found, and finally treats the whole stripped reply as
a one-item plan. -/
theorem plan_parser_three_tier :
    parsePlanSteps "1. A\n2. B\n3. C" = ["A", "B", "C"] ∧
    (create_plan "1. A\n2. B\n3. C" (initialState [userMsg "request"])).plan
      = ["A", "B", "C"] ∧
    (create_plan "1. A\n2. B\n3. C"
        (initialState [userMsg "request"])).current_step = 0 ∧
    (∀ text, findNumbered text ≠ [] →
      ((findNumbered text).map pyStrip).filter (fun step => step ≠ "") ≠ [] →
      parsePlanSteps text
        = ((findNumbered text).map pyStrip).filter (fun step => step ≠ "")) ∧
    (∀ text, findNumbered text = [] → fallbackLines text ≠ [] →
      parsePlanSteps text = fallbackLines text) ∧
    (∀ text, findNumbered text = [] → fallbackLines text = [] →
      parsePlanSteps text = [pyStrip text]) := by
  refine ⟨by decide, by decide, by decide, ?_, ?_, ?_⟩
  · intro text hn hf
    have h1 : (findNumbered text).isEmpty = false := by
      rw [List.isEmpty_eq_false]
      exact hn
    have h2 : (((findNumbered text).map pyStrip).filter
        (fun step => step ≠ "")).isEmpty = false := by
      rw [List.isEmpty_eq_false]
      exact hf
    simp only [parsePlanSteps]
    rw [h1, if_neg Bool.false_ne_true, h2, if_neg Bool.false_ne_true]
  · intro text hn hf
    have h1 : (findNumbered text).isEmpty = true := by
      rw [List.isEmpty_iff]
      exact hn
    have h2 : ((fallbackLines text).map pyStrip).filter
        (fun step => step ≠ "") = fallbackLines text :=
      strip_filter_stable (pySplitNewlines text)
    have h3 : (fallbackLines text).isEmpty = false := by
      rw [List.isEmpty_eq_false]
      exact hf
    simp only [parsePlanSteps]
    rw [h1, if_pos rfl, h2, h3, if_neg Bool.false_ne_true]
  · intro text hn hf
    simp only [parsePlanSteps]
    rw [hn, List.isEmpty_nil, if_pos rfl, hf, List.map_nil, List.filter_nil,
      List.isEmpty_nil, if_pos rfl]

/-- Witness for C5: the one-line non-numbered reply falls back to the
line split. -/
theorem plan_parser_three_tier_witness :
    parsePlanSteps "Run gsutil ls" = fallbackLines "Run gsutil ls" :=
  plan_parser_three_tier.2.2.2.2.1 "Run gsutil ls" (by decide) (by decide)

/-- Witness for C6 at the empty initial state. -/
theorem reachable_cursor_invariant_witness :
    (initialState []).current_step = -1 ∨
    (0 ≤ (initialState []).current_step ∧
      (initialState []).current_step < ((initialState []).plan.length : Int)) ∨
    (initialState []).current_step = ((initialState []).plan.length : Int) :=
  reachable_cursor_invariant (initialState []) (ReachableState.start [])
